import Mathlib

/-!
Verification of the booking/inventory core of the CW2 travel-booking backend.

The definitions below are a shallow embedding of
`src/controllers/bookingController.ts`, `src/controllers/authController.ts`,
`src/models/Booking.ts`, `src/models/Hotel.ts` and `src/models/User.ts`.
Dates are modelled as integer milliseconds since the epoch (the value of
JavaScript `Date.getTime()`), monetary amounts as rationals (JavaScript
numbers holding DECIMAL(10,2) values), and the relational store as lists of
rows.  Each controller action becomes a pure function from a database state
and a request to a response and a new database state.
-/

namespace CW2

/-- Booking.status enum: "pending" | "confirmed" | "cancelled" | "completed". -/
inductive BookingStatus where
  | pending
  | confirmed
  | cancelled
  | completed
deriving DecidableEq, Repr

/-- Booking.paymentStatus enum: "pending" | "paid" | "failed" | "refunded". -/
inductive PaymentStatus where
  | pending
  | paid
  | failed
  | refunded
deriving DecidableEq, Repr

/-- User.role enum: "customer" | "employee" | "admin". -/
inductive Role where
  | customer
  | employee
  | admin
deriving DecidableEq, Repr

/-- A row of the `hotels` table (the fields the booking core touches). -/
structure Hotel where
  id : Nat
  name : String
  city : String
  country : String
  pricePerNight : ℚ
  currency : String
  totalRooms : Int
  availableRooms : Int
  isActive : Bool
deriving DecidableEq, Repr

/-- A row of the `bookings` table. -/
structure Booking where
  id : Nat
  userId : Nat
  hotelId : Nat
  checkInDate : Int
  checkOutDate : Int
  numberOfGuests : Nat
  numberOfRooms : Nat
  totalPrice : ℚ
  currency : String
  status : BookingStatus
  paymentStatus : PaymentStatus
  contactEmail : String
  contactPhone : Option String
  specialRequests : Option String
  bookingReference : String
  cancellationReason : Option String
  cancellationDate : Option Int
deriving DecidableEq, Repr

/-- `ctx.user` as set by the auth middleware (`src/middleware/auth.ts`):
`isAdmin` and `isEmployee` are computed from the token's role string. -/
structure AuthUser where
  userId : Nat
  isAdmin : Bool
  isEmployee : Bool
deriving DecidableEq, Repr

/-- The relational store as seen by the booking core. -/
structure DB where
  hotels : List Hotel
  bookings : List Booking
deriving DecidableEq, Repr

/-- `Hotel.findByPk(hotelId)` / `Hotel.findByPk(booking.hotelId)`. -/
def findHotel (hotels : List Hotel) (hid : Nat) : Option Hotel :=
  hotels.find? (fun h => h.id == hid)

/-- `Booking.findOne({ where: whereConditions })` with the role-based access
control of the controller: non-admin, non-employee callers additionally get
`whereConditions.userId = ctx.user.userId`. -/
def findBookingScoped (bookings : List Booking) (u : AuthUser) (bid : Nat) :
    Option Booking :=
  bookings.find? (fun b =>
    b.id == bid && (u.isAdmin || u.isEmployee || b.userId == u.userId))

/-- Lookup of a booking row by primary key only. -/
def findBookingById (bookings : List Booking) (bid : Nat) : Option Booking :=
  bookings.find? (fun b => b.id == bid)

/-- `Math.ceil((checkOutDate.getTime() - checkInDate.getTime()) / (1000*3600*24))`:
the ceiling of an exact integer millisecond difference divided by one day.
For integers, `ceil (a / b) = -((-a).fdiv b)` when `b > 0`. -/
def nightsBetween (checkIn checkOut : Int) : Int :=
  -((-(checkOut - checkIn)).fdiv 86400000)

/-- `Booking.canBeCancelled()` from `src/models/Booking.ts`:
status is "confirmed" or "pending". -/
def Booking.canBeCancelled (b : Booking) : Bool :=
  b.status == BookingStatus.confirmed || b.status == BookingStatus.pending

/-- The response data the controller puts in `ctx` (HTTP status, success flag,
the booking payload when one is returned, and the create endpoint's extra
`numberOfNights` field). -/
structure Response where
  status : Nat
  success : Bool
  data : Option Booking := none
  numberOfNights : Option Int := none
deriving DecidableEq, Repr

/-- Body of `POST /api/bookings` after `createBookingSchema.parse`. -/
structure CreateBookingReq where
  hotelId : Nat
  checkInDate : Int
  checkOutDate : Int
  numberOfGuests : Nat
  numberOfRooms : Nat
  contactEmail : String
  contactPhone : Option String := none
  specialRequests : Option String := none
deriving DecidableEq, Repr

/-- `createBookingSchema`: guests in 1..20, rooms in 1..10, check-out after
check-in, check-in not before today (midnight). -/
def createBookingValid (today : Int) (r : CreateBookingReq) : Bool :=
  1 ≤ r.numberOfGuests && r.numberOfGuests ≤ 20 &&
  (1 ≤ r.numberOfRooms && r.numberOfRooms ≤ 10) &&
  r.checkInDate < r.checkOutDate &&
  today ≤ r.checkInDate

/-- `BookingController.createBooking`.  `today` is midnight of the request
day, `userId` is `ctx.user.userId`, `newId` and `ref` are the primary key and
booking reference assigned by the database / `beforeCreate` hook. -/
def createBooking (db : DB) (today : Int) (userId newId : Nat) (ref : String)
    (r : CreateBookingReq) : Response × DB :=
  if !(createBookingValid today r) then
    ({ status := 400, success := false }, db)
  else
    match findHotel db.hotels r.hotelId with
    | none => ({ status := 404, success := false }, db)
    | some hotel =>
      if !hotel.isActive then
        ({ status := 404, success := false }, db)
      else if hotel.availableRooms < (r.numberOfRooms : Int) then
        ({ status := 400, success := false }, db)
      else
        let nights := nightsBetween r.checkInDate r.checkOutDate
        let price := hotel.pricePerNight * (r.numberOfRooms : ℚ) * (nights : ℚ)
        let booking : Booking :=
          { id := newId, userId := userId, hotelId := r.hotelId,
            checkInDate := r.checkInDate, checkOutDate := r.checkOutDate,
            numberOfGuests := r.numberOfGuests,
            numberOfRooms := r.numberOfRooms,
            totalPrice := price, currency := hotel.currency,
            status := BookingStatus.pending,
            paymentStatus := PaymentStatus.pending,
            contactEmail := r.contactEmail, contactPhone := r.contactPhone,
            specialRequests := r.specialRequests, bookingReference := ref,
            cancellationReason := none, cancellationDate := none }
        let hotels := db.hotels.map (fun h =>
          if h.id == r.hotelId then
            { h with availableRooms := h.availableRooms - (r.numberOfRooms : Int) }
          else h)
        ({ status := 201, success := true, data := some booking,
           numberOfNights := some nights },
         { hotels := hotels, bookings := db.bookings ++ [booking] })

/-- Body of `PUT /api/bookings/:id` after `updateBookingSchema.parse`:
every field optional. -/
structure UpdateBookingReq where
  checkInDate : Option Int := none
  checkOutDate : Option Int := none
  numberOfGuests : Option Nat := none
  numberOfRooms : Option Nat := none
  contactEmail : Option String := none
  contactPhone : Option String := none
  specialRequests : Option String := none
  status : Option BookingStatus := none
  paymentStatus : Option PaymentStatus := none
  totalPrice : Option ℚ := none
deriving DecidableEq, Repr

/-- `updateBookingSchema`: optional fields with the same per-field bounds as
creation; `totalPrice` must be positive if supplied.  The update schema has no
cross-field check that check-out is after check-in. -/
def updateBookingValid (r : UpdateBookingReq) : Bool :=
  (match r.numberOfGuests with
   | none => true
   | some g => 1 ≤ g && g ≤ 20) &&
  (match r.numberOfRooms with
   | none => true
   | some n => 1 ≤ n && n ≤ 10) &&
  (match r.totalPrice with
   | none => true
   | some p => decide (0 < p))

/-- `booking.update(finalUpdateData)`: every supplied field overwrites the
stored one, absent fields are left alone. -/
def applyUpdate (b : Booking) (r : UpdateBookingReq) : Booking :=
  { b with
    checkInDate := r.checkInDate.getD b.checkInDate,
    checkOutDate := r.checkOutDate.getD b.checkOutDate,
    numberOfGuests := r.numberOfGuests.getD b.numberOfGuests,
    numberOfRooms := r.numberOfRooms.getD b.numberOfRooms,
    contactEmail := r.contactEmail.getD b.contactEmail,
    contactPhone := match r.contactPhone with
      | none => b.contactPhone
      | some p => some p,
    specialRequests := match r.specialRequests with
      | none => b.specialRequests
      | some s => some s,
    status := r.status.getD b.status,
    paymentStatus := r.paymentStatus.getD b.paymentStatus,
    totalPrice := r.totalPrice.getD b.totalPrice }

/-- Shared tail of `BookingController.updateBooking`: write the merged row
back and answer 200 with the updated booking. -/
def finishUpdate (db : DB) (booking : Booking) (r : UpdateBookingReq) :
    Response × DB :=
  let updated := applyUpdate booking r
  ({ status := 200, success := true, data := some updated },
   { db with bookings := db.bookings.map (fun x =>
       if x.id == booking.id then updated else x) })

/-- `BookingController.updateBooking`.  The price is recomputed from the
hotel's current `pricePerNight` whenever any of `checkInDate`, `checkOutDate`
or `numberOfRooms` is supplied; the `hotel!` non-null assertion means a
missing hotel row raises and is answered 500 by the catch block. -/
def updateBooking (db : DB) (u : AuthUser) (bid : Nat) (r : UpdateBookingReq) :
    Response × DB :=
  if !(updateBookingValid r) then
    ({ status := 400, success := false }, db)
  else
    match findBookingScoped db.bookings u bid with
    | none => ({ status := 404, success := false }, db)
    | some booking =>
      if !u.isAdmin && (booking.status == BookingStatus.completed ||
          booking.status == BookingStatus.cancelled) then
        ({ status := 400, success := false }, db)
      else if r.checkInDate.isSome || r.checkOutDate.isSome ||
          r.numberOfRooms.isSome then
        match findHotel db.hotels booking.hotelId with
        | none => ({ status := 500, success := false }, db)
        | some hotel =>
          let checkIn := r.checkInDate.getD booking.checkInDate
          let checkOut := r.checkOutDate.getD booking.checkOutDate
          let nights := nightsBetween checkIn checkOut
          let rooms := r.numberOfRooms.getD booking.numberOfRooms
          let price := hotel.pricePerNight * (rooms : ℚ) * (nights : ℚ)
          finishUpdate db booking { r with totalPrice := some price }
      else
        finishUpdate db booking r

/-- The row write in `cancelBooking`:
`booking.update({ status: "cancelled", cancellationReason: cancellationReason
|| "Cancelled by user", cancellationDate: new Date() })` (an empty string is
falsy in JavaScript, so it also falls back to the default reason). -/
def cancelledRow (booking : Booking) (reason : Option String) (now : Int) :
    Booking :=
  { booking with
    status := BookingStatus.cancelled,
    cancellationReason := some (match reason with
      | some s => if s == "" then "Cancelled by user" else s
      | none => "Cancelled by user"),
    cancellationDate := some now }

/-- `BookingController.cancelBooking`.  `reason` is the request body's
optional `cancellationReason`; `now` is `new Date()`.  The room restore is
guarded by `if (hotel)` on the included association, so a missing hotel row is
silently skipped. -/
def cancelBooking (db : DB) (u : AuthUser) (bid : Nat) (reason : Option String)
    (now : Int) : Response × DB :=
  match findBookingScoped db.bookings u bid with
  | none => ({ status := 404, success := false }, db)
  | some booking =>
    if !booking.canBeCancelled then
      ({ status := 400, success := false }, db)
    else
      let cancelled := cancelledRow booking reason now
      let bookings := db.bookings.map (fun x =>
        if x.id == booking.id then cancelled else x)
      let hotels := match findHotel db.hotels booking.hotelId with
        | some _ => db.hotels.map (fun h =>
            if h.id == booking.hotelId then
              { h with availableRooms :=
                  h.availableRooms + (booking.numberOfRooms : Int) }
            else h)
        | none => db.hotels
      ({ status := 200, success := true },
       { hotels := hotels, bookings := bookings })

/-- `BookingController.getBookingById` (read-only, so no new state). -/
def getBookingById (db : DB) (u : AuthUser) (bid : Nat) : Response :=
  match findBookingScoped db.bookings u bid with
  | none => { status := 404, success := false }
  | some booking => { status := 200, success := true, data := some booking }

/-- One call into the booking core. -/
inductive Op where
  | create (today : Int) (userId newId : Nat) (ref : String)
      (r : CreateBookingReq)
  | update (u : AuthUser) (bid : Nat) (r : UpdateBookingReq)
  | cancel (u : AuthUser) (bid : Nat) (reason : Option String) (now : Int)
deriving DecidableEq, Repr

/-- The state transformation of one operation. -/
def applyOp (db : DB) : Op → DB
  | Op.create today userId newId ref r =>
      (createBooking db today userId newId ref r).2
  | Op.update u bid r => (updateBooking db u bid r).2
  | Op.cancel u bid reason now => (cancelBooking db u bid reason now).2

/-- Run a sequence of booking-core operations. -/
def run (db : DB) : List Op → DB
  | [] => db
  | op :: ops => run (applyOp db op) ops

/-! ### Concrete rows used to instantiate the theorems -/

/-- A hotel with five rooms, all free. -/
def hotelFive : Hotel :=
  { id := 1, name := "Grand", city := "Hong Kong", country := "China",
    pricePerNight := 100, currency := "USD", totalRooms := 5,
    availableRooms := 5, isActive := true }

/-- A hotel with five rooms of which two are free. -/
def hotelTwoFree : Hotel :=
  { id := 1, name := "Grand", city := "Hong Kong", country := "China",
    pricePerNight := 100, currency := "USD", totalRooms := 5,
    availableRooms := 2, isActive := true }

/-- An ordinary customer caller. -/
def customer7 : AuthUser := { userId := 7, isAdmin := false, isEmployee := false }

/-- A one-night, one-room booking request against hotel 1. -/
def reqOneRoom : CreateBookingReq :=
  { hotelId := 1, checkInDate := 0, checkOutDate := 86400000,
    numberOfGuests := 1, numberOfRooms := 1, contactEmail := "a@b.c" }

/-- A two-room booking request against hotel 1. -/
def reqTwoRooms : CreateBookingReq :=
  { hotelId := 1, checkInDate := 0, checkOutDate := 86400000,
    numberOfGuests := 2, numberOfRooms := 2, contactEmail := "a@b.c" }

/-- The spec's worked example: 2 rooms, check-in 2024-03-01, check-out
2024-03-04 (as epoch milliseconds). -/
def reqSpecExample : CreateBookingReq :=
  { hotelId := 1, checkInDate := 1709251200000, checkOutDate := 1709510400000,
    numberOfGuests := 2, numberOfRooms := 2, contactEmail := "a@b.c" }

/-! ### List lemmas about `find?` after a keyed in-place update -/

/-- Updating exactly the rows that satisfy `p`, by a function that preserves
`p`, moves `find?` from the old row to its image. -/
theorem find?_map_self {α : Type} (l : List α) (p : α → Bool) (a : α)
    (f : α → α) (hfind : l.find? p = some a) (hpf : ∀ x, p (f x) = p x) :
    (l.map (fun x => if p x then f x else x)).find? p = some (f a) := by
  induction l with
  | nil => simp [List.find?] at hfind
  | cons h t ih =>
    simp only [List.map]
    by_cases hp : p h = true
    · rw [List.find?_cons_of_pos _ hp] at hfind
      injection hfind with he
      subst he
      rw [if_pos hp]
      exact List.find?_cons_of_pos _ (by rw [hpf]; exact hp)
    · rw [List.find?_cons_of_neg _ hp] at hfind
      rw [if_neg hp]
      rw [List.find?_cons_of_neg _ hp]
      exact ih hfind

/-- Replacing every row that satisfies `c` by a fixed row `b` that satisfies
`p` moves `find?` (which previously returned a row satisfying `c`) to `b`. -/
theorem find?_map_const {α : Type} (l : List α) (p c : α → Bool) (a b : α)
    (hfind : l.find? p = some a) (hca : c a = true) (hpb : p b = true) :
    (l.map (fun x => if c x then b else x)).find? p = some b := by
  induction l with
  | nil => simp [List.find?] at hfind
  | cons h t ih =>
    simp only [List.map]
    by_cases hc : c h = true
    · rw [if_pos hc]
      exact List.find?_cons_of_pos _ hpb
    · rw [if_neg hc]
      by_cases hp : p h = true
      · rw [List.find?_cons_of_pos _ hp] at hfind
        injection hfind with he
        subst he
        exact absurd hca hc
      · rw [List.find?_cons_of_neg _ hp] at hfind
        rw [List.find?_cons_of_neg _ hp]
        exact ih hfind

/-- `nightsBetween` is the integer ceiling of the length of the stay in days,
matching `Math.ceil((checkOut - checkIn) / (1000 * 3600 * 24))` on the exact
millisecond timestamps. -/
theorem nightsBetween_eq_ceil (ci co : Int) :
    nightsBetween ci co = ⌈((co - ci : Int) : ℚ) / (86400000 : ℚ)⌉ := by
  unfold nightsBetween
  generalize co - ci = d
  rw [Int.fdiv_eq_ediv _ (by norm_num)]
  have h2 := Rat.floor_intCast_div_natCast (-d) 86400000
  push_cast at h2
  rw [neg_div, Int.floor_neg] at h2
  omega

/-! ### Claim theorems -/

/-- C1: a create-booking request against an existing, active hotel succeeds
with 201 and decrements `availableRooms` by exactly `numberOfRooms` whenever
enough rooms are free (so requesting all `N` free rooms leaves `0`); if the
request exceeds `availableRooms`, it fails with 400 and the whole database —
inventory and bookings — is unchanged. -/
theorem createBooking_inventory (db : DB) (today : Int) (userId newId : Nat)
    (ref : String) (r : CreateBookingReq) (hotel : Hotel)
    (hfind : findHotel db.hotels r.hotelId = some hotel)
    (hactive : hotel.isActive = true)
    (hvalid : createBookingValid today r = true) :
    ((r.numberOfRooms : Int) ≤ hotel.availableRooms →
      (createBooking db today userId newId ref r).1.status = 201 ∧
      findHotel (createBooking db today userId newId ref r).2.hotels
          r.hotelId =
        some { hotel with availableRooms :=
                 hotel.availableRooms - (r.numberOfRooms : Int) }) ∧
    (hotel.availableRooms < (r.numberOfRooms : Int) →
      (createBooking db today userId newId ref r).1.status = 400 ∧
      (createBooking db today userId newId ref r).2 = db) := by
  have hif : (!hotel.isActive) = false := by rw [hactive]; rfl
  constructor
  · intro hle
    have hnotlt : ¬ hotel.availableRooms < (r.numberOfRooms : Int) :=
      not_lt.mpr hle
    simp only [createBooking, hvalid, hfind, hif, Bool.not_true,
      Bool.false_eq_true, if_false, if_neg hnotlt]
    refine ⟨by trivial, ?_⟩
    exact find?_map_self db.hotels (fun h => h.id == r.hotelId) hotel
      (fun h => { h with availableRooms :=
        h.availableRooms - (r.numberOfRooms : Int) }) hfind (fun x => rfl)
  · intro hlt
    simp only [createBooking, hvalid, hfind, hif, Bool.not_true,
      Bool.false_eq_true, if_false, if_pos hlt]
    exact ⟨by trivial, by trivial⟩

/-- Witness for C1 at a concrete input: a hotel with 2 free rooms, a request
for 2 rooms; the booking is created (201) and 0 rooms remain. -/
theorem createBooking_inventory_witness :
    (createBooking { hotels := [hotelTwoFree], bookings := [] } 0 7 1 "WLR1"
      reqTwoRooms).1.status = 201 ∧
    findHotel (createBooking { hotels := [hotelTwoFree], bookings := [] } 0 7 1
      "WLR1" reqTwoRooms).2.hotels reqTwoRooms.hotelId =
      some { hotelTwoFree with availableRooms := 0 } := by
  have h := (createBooking_inventory { hotels := [hotelTwoFree], bookings := [] }
    0 7 1 "WLR1" reqTwoRooms hotelTwoFree rfl rfl rfl).1 (by decide)
  refine ⟨h.1, ?_⟩
  rw [h.2]
  decide

/-- C3: on a valid, satisfiable create-booking request the reported number of
nights is the ceiling of `(checkOutDate - checkInDate) / 1 day` and the stored
`totalPrice` is exactly `pricePerNight * numberOfRooms * nights`. -/
theorem createBooking_pricing (db : DB) (today : Int) (userId newId : Nat)
    (ref : String) (r : CreateBookingReq) (hotel : Hotel)
    (hfind : findHotel db.hotels r.hotelId = some hotel)
    (hactive : hotel.isActive = true)
    (hvalid : createBookingValid today r = true)
    (havail : (r.numberOfRooms : Int) ≤ hotel.availableRooms) :
    (createBooking db today userId newId ref r).1.status = 201 ∧
    (createBooking db today userId newId ref r).1.numberOfNights =
      some ⌈((r.checkOutDate - r.checkInDate : Int) : ℚ) / (86400000 : ℚ)⌉ ∧
    ∃ b, (createBooking db today userId newId ref r).1.data = some b ∧
      b.totalPrice = hotel.pricePerNight * (r.numberOfRooms : ℚ) *
        ((⌈((r.checkOutDate - r.checkInDate : Int) : ℚ) / (86400000 : ℚ)⌉ :
          ℤ) : ℚ) := by
  have hif : (!hotel.isActive) = false := by rw [hactive]; rfl
  have hnotlt : ¬ hotel.availableRooms < (r.numberOfRooms : Int) :=
    not_lt.mpr havail
  simp only [createBooking, hvalid, hfind, hif, Bool.not_true,
    Bool.false_eq_true, if_false, if_neg hnotlt]
  rw [← nightsBetween_eq_ceil]
  refine ⟨by trivial, by trivial, ?_⟩
  exact ⟨_, rfl, rfl⟩

/-- A pending two-room booking for user 7 on hotel 1 (one night, 200.00). -/
def bookingPending : Booking :=
  { id := 1, userId := 7, hotelId := 1, checkInDate := 0,
    checkOutDate := 86400000, numberOfGuests := 2, numberOfRooms := 2,
    totalPrice := 200, currency := "USD", status := BookingStatus.pending,
    paymentStatus := PaymentStatus.pending, contactEmail := "a@b.c",
    contactPhone := none, specialRequests := none, bookingReference := "WLR1",
    cancellationReason := none, cancellationDate := none }

/-- A database with one hotel (two free rooms) and user 7's pending
two-room booking. -/
def dbOnePending : DB :=
  { hotels := [hotelTwoFree], bookings := [bookingPending] }

/-- C2: cancelling a pending or confirmed booking answers 200, records the
cancellation reason and date on the row, and adds the booking's
`numberOfRooms` back to the hotel's `availableRooms`; a second cancellation
of the same booking then fails with 400 and changes nothing, and cancelling a
booking already cancelled or completed fails with 400 and changes nothing. -/
theorem cancelBooking_spec (db : DB) (u : AuthUser) (bid : Nat)
    (reason reason2 : Option String) (now now2 : Int)
    (booking : Booking) (hotel : Hotel)
    (hfind : findBookingScoped db.bookings u bid = some booking)
    (hhotel : findHotel db.hotels booking.hotelId = some hotel) :
    ((booking.status = BookingStatus.pending ∨
        booking.status = BookingStatus.confirmed) →
      (cancelBooking db u bid reason now).1.status = 200 ∧
      findBookingScoped (cancelBooking db u bid reason now).2.bookings u bid =
        some (cancelledRow booking reason now) ∧
      findHotel (cancelBooking db u bid reason now).2.hotels booking.hotelId =
        some { hotel with availableRooms :=
                 hotel.availableRooms + (booking.numberOfRooms : Int) } ∧
      (cancelBooking (cancelBooking db u bid reason now).2 u bid reason2
          now2).1.status = 400 ∧
      (cancelBooking (cancelBooking db u bid reason now).2 u bid reason2
          now2).2 = (cancelBooking db u bid reason now).2) ∧
    ((booking.status = BookingStatus.cancelled ∨
        booking.status = BookingStatus.completed) →
      (cancelBooking db u bid reason now).1.status = 400 ∧
      (cancelBooking db u bid reason now).2 = db) := by
  have hscope := List.find?_some hfind
  constructor
  · intro hst
    have hcan : (!booking.canBeCancelled) = false := by
      rcases hst with h | h <;>
        simp [Booking.canBeCancelled, h]
    have hred : cancelBooking db u bid reason now =
        ({ status := 200, success := true },
         { hotels := db.hotels.map (fun h =>
             if h.id == booking.hotelId then
               { h with availableRooms :=
                   h.availableRooms + (booking.numberOfRooms : Int) }
             else h),
           bookings := db.bookings.map (fun x =>
             if x.id == booking.id then cancelledRow booking reason now
             else x) }) := by
      simp only [cancelBooking, hfind, hcan, Bool.false_eq_true, if_false,
        hhotel]
    have hfound2 : findBookingScoped (cancelBooking db u bid reason
        now).2.bookings u bid = some (cancelledRow booking reason now) := by
      rw [hred]
      exact find?_map_const db.bookings _ (fun x => x.id == booking.id)
        booking (cancelledRow booking reason now) hfind (by simp)
        (by simpa [cancelledRow] using hscope)
    have hcan2 : (!(cancelledRow booking reason now).canBeCancelled) = true :=
      rfl
    refine ⟨by rw [hred], hfound2, ?_, ?_, ?_⟩
    · rw [hred]
      exact find?_map_self db.hotels (fun h => h.id == booking.hotelId) hotel
        (fun h => { h with availableRooms :=
          h.availableRooms + (booking.numberOfRooms : Int) }) hhotel
        (fun x => rfl)
    · revert hfound2
      generalize (cancelBooking db u bid reason now).2 = db2
      intro hfound2
      simp only [cancelBooking, hfound2, hcan2, if_true]
    · revert hfound2
      generalize (cancelBooking db u bid reason now).2 = db2
      intro hfound2
      simp only [cancelBooking, hfound2, hcan2, if_true]
  · intro hst
    have hcan : (!booking.canBeCancelled) = true := by
      rcases hst with h | h <;>
        simp [Booking.canBeCancelled, h]
    simp only [cancelBooking, hfind, hcan, if_true]
    exact ⟨by trivial, by trivial⟩

/-- Witness for C2 at a concrete input: cancelling a pending two-room booking
restores the hotel from 2 to 4 free rooms and a repeated cancellation fails
with 400. -/
theorem cancelBooking_spec_witness :
    (cancelBooking dbOnePending customer7 1 none 5).1.status = 200 ∧
    findHotel (cancelBooking dbOnePending customer7 1 none 5).2.hotels
      bookingPending.hotelId =
      some { hotelTwoFree with availableRooms := 4 } ∧
    (cancelBooking (cancelBooking dbOnePending customer7 1 none 5).2 customer7
      1 none 6).1.status = 400 := by
  have h := (cancelBooking_spec dbOnePending customer7 1 none none 5 6
    bookingPending hotelTwoFree rfl rfl).1 (Or.inl rfl)
  refine ⟨h.1, ?_, h.2.2.2.1⟩
  rw [h.2.2.1]
  decide

/-- Witness for C3 at the spec's example: 100.00 per night, 2 rooms,
2024-03-01 to 2024-03-04 gives 3 nights and a total price of 600.00. -/
theorem createBooking_pricing_witness :
    (createBooking { hotels := [hotelFive], bookings := [] } 1709251200000 7 1
      "WLR1" reqSpecExample).1.status = 201 ∧
    (createBooking { hotels := [hotelFive], bookings := [] } 1709251200000 7 1
      "WLR1" reqSpecExample).1.numberOfNights = some 3 ∧
    ∃ b, (createBooking { hotels := [hotelFive], bookings := [] } 1709251200000
      7 1 "WLR1" reqSpecExample).1.data = some b ∧ b.totalPrice = 600 := by
  have h := createBooking_pricing { hotels := [hotelFive], bookings := [] }
    1709251200000 7 1 "WLR1" reqSpecExample hotelFive rfl rfl rfl (by decide)
  obtain ⟨h1, h2, b, hb, hp⟩ := h
  have hn : nightsBetween reqSpecExample.checkInDate reqSpecExample.checkOutDate
      = 3 := by decide
  refine ⟨h1, ?_, b, hb, ?_⟩
  · rw [h2, ← nightsBetween_eq_ceil, hn]
  · rw [hp, ← nightsBetween_eq_ceil, hn]
    norm_num [hotelFive, reqSpecExample]

/-- C5: an update that supplies a new check-in date, check-out date or room
count answers 200, stores a total price recomputed from the hotel's current
`pricePerNight`, the updated room count and the new ceiling night count — and
leaves the hotels table (so in particular `availableRooms` and every other
hotel field) completely unchanged: no inventory reconciliation happens. -/
theorem updateBooking_reprice_frame (db : DB) (u : AuthUser) (bid : Nat)
    (r : UpdateBookingReq) (booking : Booking) (hotel : Hotel)
    (hvalid : updateBookingValid r = true)
    (hfind : findBookingScoped db.bookings u bid = some booking)
    (hguard : (!u.isAdmin && (booking.status == BookingStatus.completed ||
      booking.status == BookingStatus.cancelled)) = false)
    (hsome : (r.checkInDate.isSome || r.checkOutDate.isSome ||
      r.numberOfRooms.isSome) = true)
    (hhotel : findHotel db.hotels booking.hotelId = some hotel) :
    (updateBooking db u bid r).1.status = 200 ∧
    (updateBooking db u bid r).2.hotels = db.hotels ∧
    ∃ b, (updateBooking db u bid r).1.data = some b ∧
      b.totalPrice = hotel.pricePerNight *
        ((r.numberOfRooms.getD booking.numberOfRooms : Nat) : ℚ) *
        ((⌈((r.checkOutDate.getD booking.checkOutDate -
              r.checkInDate.getD booking.checkInDate : Int) : ℚ) /
            (86400000 : ℚ)⌉ : ℤ) : ℚ) := by
  have hvif : (!updateBookingValid r) = false := by rw [hvalid]; rfl
  simp only [updateBooking, hvif, Bool.false_eq_true, if_false, hfind, hguard,
    hsome, if_true, hhotel, finishUpdate]
  rw [← nightsBetween_eq_ceil]
  exact ⟨by trivial, by trivial, _, rfl, rfl⟩

/-- Witness for C5: changing the pending booking to 3 rooms keeps the hotel
row untouched and stores 100 × 3 × 1 = 300. -/
theorem updateBooking_reprice_frame_witness :
    (updateBooking dbOnePending customer7 1
      { numberOfRooms := some 3 }).1.status = 200 ∧
    (updateBooking dbOnePending customer7 1
      { numberOfRooms := some 3 }).2.hotels = dbOnePending.hotels ∧
    ∃ b, (updateBooking dbOnePending customer7 1
      { numberOfRooms := some 3 }).1.data = some b ∧ b.totalPrice = 300 := by
  obtain ⟨h1, h2, b, hb, hp⟩ := updateBooking_reprice_frame dbOnePending
    customer7 1 { numberOfRooms := some 3 } bookingPending hotelTwoFree rfl rfl
    rfl rfl rfl
  refine ⟨h1, h2, b, hb, ?_⟩
  rw [hp, ← nightsBetween_eq_ceil]
  have hn : nightsBetween ((Option.none (α := Int)).getD
      bookingPending.checkInDate) ((Option.none (α := Int)).getD
      bookingPending.checkOutDate) = 1 := by decide
  rw [hn]
  norm_num [hotelTwoFree]

/-- C6: a non-admin update of a completed or cancelled booking is rejected
with 400 and the database is unchanged; an admin is exempt from this rule and
the update proceeds (200, given the booking's hotel row exists); and a caller
who is neither admin nor employee can only ever reach bookings whose `userId`
is their own. -/
theorem updateBooking_modify_guard (db : DB) (u : AuthUser) (bid : Nat)
    (r : UpdateBookingReq) (booking : Booking)
    (hvalid : updateBookingValid r = true)
    (hfind : findBookingScoped db.bookings u bid = some booking) :
    (u.isAdmin = false →
      (booking.status = BookingStatus.completed ∨
        booking.status = BookingStatus.cancelled) →
      (updateBooking db u bid r).1.status = 400 ∧
      (updateBooking db u bid r).2 = db) ∧
    (u.isAdmin = false → u.isEmployee = false → booking.userId = u.userId) ∧
    (u.isAdmin = true → (findHotel db.hotels booking.hotelId).isSome = true →
      (updateBooking db u bid r).1.status = 200) := by
  have hvif : (!updateBookingValid r) = false := by rw [hvalid]; rfl
  refine ⟨?_, ?_, ?_⟩
  · intro hadmin hst
    have hcond : (!u.isAdmin && (booking.status == BookingStatus.completed ||
        booking.status == BookingStatus.cancelled)) = true := by
      rcases hst with h | h <;> simp [hadmin, h]
    simp only [updateBooking, hvif, Bool.false_eq_true, if_false, hfind,
      hcond, if_true]
    exact ⟨by trivial, by trivial⟩
  · intro hadmin hemp
    have hp := List.find?_some hfind
    simp only [hadmin, hemp, Bool.and_eq_true, Bool.or_eq_true,
      Bool.false_eq_true, false_or, beq_iff_eq] at hp
    exact hp.2
  · intro hadmin hhsome
    obtain ⟨hotel, hhotel⟩ := Option.isSome_iff_exists.mp hhsome
    have hcond : (!u.isAdmin && (booking.status == BookingStatus.completed ||
        booking.status == BookingStatus.cancelled)) = false := by
      simp [hadmin]
    cases hrec : (r.checkInDate.isSome || r.checkOutDate.isSome ||
        r.numberOfRooms.isSome) with
    | true =>
      simp only [updateBooking, hvif, Bool.false_eq_true, if_false, hfind,
        hcond, hrec, if_true, hhotel, finishUpdate]
    | false =>
      simp only [updateBooking, hvif, Bool.false_eq_true, if_false, hfind,
        hcond, hrec, if_true, finishUpdate]

/-- An already-cancelled one-room booking for user 7 on hotel 1. -/
def bookingCancelled : Booking :=
  { id := 2, userId := 7, hotelId := 1, checkInDate := 0,
    checkOutDate := 86400000, numberOfGuests := 1, numberOfRooms := 1,
    totalPrice := 100, currency := "USD", status := BookingStatus.cancelled,
    paymentStatus := PaymentStatus.pending, contactEmail := "a@b.c",
    contactPhone := none, specialRequests := none, bookingReference := "WLR2",
    cancellationReason := some "Cancelled by user",
    cancellationDate := some 3 }

/-- A database holding the cancelled booking. -/
def dbOneCancelled : DB :=
  { hotels := [hotelTwoFree], bookings := [bookingCancelled] }

/-- Witness for C6: the owner (a plain customer) cannot modify their
cancelled booking — 400, database unchanged — and the scoped lookup implies
ownership. -/
theorem updateBooking_modify_guard_witness :
    ((updateBooking dbOneCancelled customer7 2
        { numberOfGuests := some 3 }).1.status = 400 ∧
      (updateBooking dbOneCancelled customer7 2
        { numberOfGuests := some 3 }).2 = dbOneCancelled) ∧
    bookingCancelled.userId = customer7.userId := by
  have h := updateBooking_modify_guard dbOneCancelled customer7 2
    { numberOfGuests := some 3 } bookingCancelled rfl rfl
  exact ⟨h.1 rfl (Or.inr rfl), h.2.1 rfl rfl⟩

/-- C7: a caller who is neither admin nor employee and owns no booking with
the requested id gets 404 from read, update and cancel, the response carries
no booking data, and the database is unchanged. -/
theorem ownership_scoping (db : DB) (u : AuthUser) (bid : Nat)
    (r : UpdateBookingReq) (reason : Option String) (now : Int)
    (hadmin : u.isAdmin = false) (hemp : u.isEmployee = false)
    (hvalid : updateBookingValid r = true)
    (hnotowner : ∀ b ∈ db.bookings, b.id = bid → b.userId ≠ u.userId) :
    (getBookingById db u bid).status = 404 ∧
    (getBookingById db u bid).data = none ∧
    (updateBooking db u bid r).1.status = 404 ∧
    (updateBooking db u bid r).1.data = none ∧
    (updateBooking db u bid r).2 = db ∧
    (cancelBooking db u bid reason now).1.status = 404 ∧
    (cancelBooking db u bid reason now).2 = db := by
  have hvif : (!updateBookingValid r) = false := by rw [hvalid]; rfl
  have hnone : findBookingScoped db.bookings u bid = none := by
    rw [findBookingScoped, List.find?_eq_none]
    intro x hx
    simp only [hadmin, hemp, Bool.and_eq_true, Bool.or_eq_true,
      Bool.false_eq_true, false_or, beq_iff_eq, not_and]
    intro hid
    exact hnotowner x hx hid
  refine ⟨?_, ?_, ?_, ?_, ?_, ?_, ?_⟩ <;>
    simp only [getBookingById, updateBooking, cancelBooking, hvif,
      Bool.false_eq_true, if_false, hnone]

/-- A second plain customer, user 9, who owns nothing in the test states. -/
def customer9 : AuthUser := { userId := 9, isAdmin := false, isEmployee := false }

/-- Witness for C7: user 9 probing user 7's booking gets 404 everywhere and
nothing changes. -/
theorem ownership_scoping_witness :
    (getBookingById dbOnePending customer9 1).status = 404 ∧
    (getBookingById dbOnePending customer9 1).data = none ∧
    (updateBooking dbOnePending customer9 1
      { numberOfGuests := some 3 }).1.status = 404 ∧
    (updateBooking dbOnePending customer9 1
      { numberOfGuests := some 3 }).1.data = none ∧
    (updateBooking dbOnePending customer9 1
      { numberOfGuests := some 3 }).2 = dbOnePending ∧
    (cancelBooking dbOnePending customer9 1 none 5).1.status = 404 ∧
    (cancelBooking dbOnePending customer9 1 none 5).2 = dbOnePending :=
  ownership_scoping dbOnePending customer9 1
    { numberOfGuests := some 3 } none 5 rfl rfl rfl (by decide)

/-- C10: an authorized update of a modifiable booking that supplies a
`totalPrice` but none of the check-in date, check-out date or room count
stores the client-supplied `totalPrice` verbatim — no recomputation — both in
the response and in the bookings table. -/
theorem updateBooking_price_passthrough (db : DB) (u : AuthUser) (bid : Nat)
    (r : UpdateBookingReq) (booking : Booking) (p : ℚ)
    (hvalid : updateBookingValid r = true)
    (hfind : findBookingScoped db.bookings u bid = some booking)
    (hguard : (!u.isAdmin && (booking.status == BookingStatus.completed ||
      booking.status == BookingStatus.cancelled)) = false)
    (hci : r.checkInDate = none) (hco : r.checkOutDate = none)
    (hnr : r.numberOfRooms = none) (hp : r.totalPrice = some p) :
    (updateBooking db u bid r).1.status = 200 ∧
    ∃ b, (updateBooking db u bid r).1.data = some b ∧ b.totalPrice = p ∧
      findBookingById (updateBooking db u bid r).2.bookings booking.id =
        some b := by
  have hvif : (!updateBookingValid r) = false := by rw [hvalid]; rfl
  have hsome : (r.checkInDate.isSome || r.checkOutDate.isSome ||
      r.numberOfRooms.isSome) = false := by
    rw [hci, hco, hnr]; rfl
  simp only [updateBooking, hvif, Bool.false_eq_true, if_false, hfind, hguard,
    hsome, if_true, finishUpdate]
  refine ⟨by trivial, applyUpdate booking r, by trivial, ?_, ?_⟩
  · simp only [applyUpdate, hp, Option.getD_some]
  · have hmem := List.mem_of_find?_eq_some hfind
    have hex : (db.bookings.find? (fun b => b.id == booking.id)).isSome := by
      rw [List.find?_isSome]
      exact ⟨booking, hmem, by simp⟩
    obtain ⟨a, ha⟩ := Option.isSome_iff_exists.mp hex
    have hca := List.find?_some ha
    exact find?_map_const db.bookings (fun b => b.id == booking.id)
      (fun x => x.id == booking.id) a (applyUpdate booking r) ha hca
      (by simp [applyUpdate])

/-- Witness for C10: supplying totalPrice 999 with no date or room change
stores 999, which differs from pricePerNight × numberOfRooms × nights =
100 × 2 × 1 = 200. -/
theorem updateBooking_price_passthrough_witness :
    (updateBooking dbOnePending customer7 1
      { totalPrice := some 999 }).1.status = 200 ∧
    (∃ b, (updateBooking dbOnePending customer7 1
        { totalPrice := some 999 }).1.data = some b ∧ b.totalPrice = 999 ∧
      findBookingById (updateBooking dbOnePending customer7 1
        { totalPrice := some 999 }).2.bookings bookingPending.id = some b) ∧
    (999 : ℚ) ≠ hotelTwoFree.pricePerNight *
      (bookingPending.numberOfRooms : ℚ) *
      ((nightsBetween bookingPending.checkInDate
        bookingPending.checkOutDate : ℤ) : ℚ) := by
  have h := updateBooking_price_passthrough dbOnePending customer7 1
    { totalPrice := some 999 } bookingPending 999 rfl rfl rfl rfl rfl rfl rfl
  refine ⟨h.1, h.2, ?_⟩
  have hn : nightsBetween bookingPending.checkInDate
      bookingPending.checkOutDate = 1 := by decide
  rw [hn]
  norm_num [hotelTwoFree, bookingPending]

/-! ### C4: reachable-state analysis of the hotel inventory counter -/

/-- Well-formedness of the hotels table: primary keys are unique and no
availability counter is negative. -/
def HotelsOK (hotels : List Hotel) : Prop :=
  (hotels.map Hotel.id).Nodup ∧ ∀ h ∈ hotels, 0 ≤ h.availableRooms

/-- A keyed in-place update that does not touch the id column keeps the id
column of the table unchanged. -/
theorem map_id_unchanged (hotels : List Hotel) (c : Hotel → Bool)
    (f : Hotel → Hotel) (hf : ∀ h, (f h).id = h.id) :
    (hotels.map (fun h => if c h then f h else h)).map Hotel.id =
      hotels.map Hotel.id := by
  rw [List.map_map]
  apply List.map_congr_left
  intro h _
  by_cases hc : c h = true
  · simp [hc, hf]
  · simp [hc]

/-- Creating a booking keeps the hotels table well-formed: the decrement is
guarded by the availability check on the (unique) row it applies to. -/
theorem createBooking_hotels_ok (db : DB) (today : Int) (uid nid : Nat)
    (ref : String) (r : CreateBookingReq) (hok : HotelsOK db.hotels) :
    HotelsOK (createBooking db today uid nid ref r).2.hotels := by
  unfold createBooking
  split
  · exact hok
  split
  · exact hok
  next hotel hfind =>
    split
    · exact hok
    split
    · exact hok
    next hnotlt =>
      dsimp only
      refine ⟨?_, ?_⟩
      · rw [map_id_unchanged db.hotels (fun h => h.id == r.hotelId)
          (fun h => { h with availableRooms :=
            h.availableRooms - (r.numberOfRooms : Int) }) (fun h => rfl)]
        exact hok.1
      · intro h' hmem'
        obtain ⟨h, hmem, hh⟩ := List.mem_map.mp hmem'
        by_cases hc : (h.id == r.hotelId) = true
        · rw [if_pos hc] at hh
          have hhid : h.id = r.hotelId := by simpa using hc
          have hhotelmem := List.mem_of_find?_eq_some hfind
          have hhotelid : hotel.id = r.hotelId := by
            simpa using List.find?_some hfind
          have heq : h = hotel :=
            List.inj_on_of_nodup_map hok.1 hmem hhotelmem
              (by rw [hhid, hhotelid])
          rw [← hh]
          subst heq
          have := not_lt.mp hnotlt
          simp only
          omega
        · rw [if_neg hc] at hh
          rw [← hh]
          exact hok.2 h hmem

/-- Updating a booking never touches the hotels table. -/
theorem updateBooking_hotels_eq (db : DB) (u : AuthUser) (bid : Nat)
    (r : UpdateBookingReq) : (updateBooking db u bid r).2.hotels = db.hotels := by
  unfold updateBooking finishUpdate
  repeat first
  | rfl
  | split

/-- Cancelling a booking keeps the hotels table well-formed: the restore only
ever increases a counter by a (nonnegative) room count. -/
theorem cancelBooking_hotels_ok (db : DB) (u : AuthUser) (bid : Nat)
    (reason : Option String) (now : Int) (hok : HotelsOK db.hotels) :
    HotelsOK (cancelBooking db u bid reason now).2.hotels := by
  unfold cancelBooking
  split
  · exact hok
  next booking hfind =>
    split
    · exact hok
    split
    · dsimp only
      refine ⟨?_, ?_⟩
      · rw [map_id_unchanged db.hotels (fun h => h.id == booking.hotelId)
          (fun h => { h with availableRooms :=
            h.availableRooms + (booking.numberOfRooms : Int) }) (fun h => rfl)]
        exact hok.1
      · intro h' hmem'
        obtain ⟨h, hmem, hh⟩ := List.mem_map.mp hmem'
        by_cases hc : (h.id == booking.hotelId) = true
        · rw [if_pos hc] at hh
          rw [← hh]
          have := hok.2 h hmem
          simp only
          omega
        · rw [if_neg hc] at hh
          rw [← hh]
          exact hok.2 h hmem
    · exact hok

/-- Every single operation keeps the hotels table well-formed. -/
theorem applyOp_hotels_ok (db : DB) (op : Op) (hok : HotelsOK db.hotels) :
    HotelsOK (applyOp db op).hotels := by
  cases op with
  | create today uid nid ref r => exact createBooking_hotels_ok db today uid nid ref r hok
  | update u bid r =>
    show HotelsOK (updateBooking db u bid r).2.hotels
    rw [updateBooking_hotels_eq]
    exact hok
  | cancel u bid reason now => exact cancelBooking_hotels_ok db u bid reason now hok

/-- Every reachable hotels table is well-formed. -/
theorem run_hotels_ok (ops : List Op) (db : DB) (hok : HotelsOK db.hotels) :
    HotelsOK (run db ops).hotels := by
  induction ops generalizing db with
  | nil => exact hok
  | cons op ops ih => exact ih _ (applyOp_hotels_ok db op hok)

/-- The C4 trace: book one of five rooms, enlarge the booking to ten rooms
(the update performs no inventory reconciliation), then cancel — which
restores the updated room count. -/
def opsOverRestore : List Op :=
  [ Op.create 0 7 1 "WLR1" reqOneRoom,
    Op.update customer7 1 { numberOfRooms := some 10 },
    Op.cancel customer7 1 none 0 ]

/-- The database the C4 trace starts from: one hotel, five of five rooms
free. -/
def dbFive : DB := { hotels := [hotelFive], bookings := [] }

/-- Counterexample to C4 as stated: the trace drives the hotel to
`availableRooms = 14` with `totalRooms = 5`, violating the claimed upper
bound in a reachable state. -/
theorem hotel_invariant_counterexample :
    ¬ (∀ h ∈ (run dbFive opsOverRestore).hotels,
        0 ≤ h.availableRooms ∧ h.availableRooms ≤ h.totalRooms) := by
  decide

/-- C4 (amended): over every sequence of create, update and cancel
operations, a hotels table with unique ids keeps `0 ≤ availableRooms`; the
upper bound `availableRooms ≤ totalRooms` is not an invariant — an update
that grows `numberOfRooms` followed by a cancellation exceeds it. -/
theorem availableRooms_lower_bound (db : DB) (ops : List Op)
    (hnodup : (db.hotels.map Hotel.id).Nodup)
    (h0 : ∀ h ∈ db.hotels, 0 ≤ h.availableRooms) :
    ∀ h ∈ (run db ops).hotels, 0 ≤ h.availableRooms :=
  (run_hotels_ok ops db ⟨hnodup, h0⟩).2

/-- Witness for the amended C4 on the concrete trace: the final (inflated)
hotel row still has a nonnegative counter. -/
theorem availableRooms_lower_bound_witness :
    0 ≤ ({ hotelFive with availableRooms := 14 } : Hotel).availableRooms :=
  availableRooms_lower_bound dbFive opsOverRestore (by decide) (by decide)
    { hotelFive with availableRooms := 14 } (by decide)

/-! ### C8: status transitions initiated by the booking core -/

/-- Statuses the booking core never introduces on its own. -/
def BookingsOK (bookings : List Booking) : Prop :=
  ∀ b ∈ bookings, b.status ≠ BookingStatus.confirmed ∧
    b.status ≠ BookingStatus.completed

/-- True when the operation carries no externally supplied `status` value
(the pass-through `status` entry of `updateBookingSchema`). -/
def opNoStatusField : Op → Bool
  | Op.update _ _ r => r.status == none
  | _ => true

/-- `finishUpdate` with no supplied status leaves every booking status in
place. -/
theorem finishUpdate_bookings_ok (db : DB) (booking : Booking)
    (r : UpdateBookingReq) (hst : r.status = none)
    (hbook : booking.status ≠ BookingStatus.confirmed ∧
      booking.status ≠ BookingStatus.completed)
    (h0 : BookingsOK db.bookings) :
    BookingsOK (finishUpdate db booking r).2.bookings := by
  intro b hb
  simp only [finishUpdate] at hb
  obtain ⟨x, hx, hbx⟩ := List.mem_map.mp hb
  by_cases hc : (x.id == booking.id) = true
  · rw [if_pos hc] at hbx
    rw [← hbx]
    simp only [applyUpdate, hst, Option.getD_none]
    exact hbook
  · rw [if_neg hc] at hbx
    rw [← hbx]
    exact h0 x hx

/-- Creating a booking only appends a `pending` row. -/
theorem createBooking_bookings_ok (db : DB) (today : Int) (uid nid : Nat)
    (ref : String) (r : CreateBookingReq) (h0 : BookingsOK db.bookings) :
    BookingsOK (createBooking db today uid nid ref r).2.bookings := by
  unfold createBooking
  split
  · exact h0
  split
  · exact h0
  next hotel hfind =>
    split
    · exact h0
    split
    · exact h0
    · dsimp only
      intro b hb
      rcases List.mem_append.mp hb with hmem | hmem
      · exact h0 b hmem
      · rw [List.mem_singleton.mp hmem]
        exact ⟨by simp, by simp⟩

/-- Updating a booking with no supplied status introduces no new status. -/
theorem updateBooking_bookings_ok (db : DB) (u : AuthUser) (bid : Nat)
    (r : UpdateBookingReq) (hst : r.status = none)
    (h0 : BookingsOK db.bookings) :
    BookingsOK (updateBooking db u bid r).2.bookings := by
  unfold updateBooking
  split
  · exact h0
  split
  · exact h0
  next booking hfind =>
    have hbook := h0 booking (List.mem_of_find?_eq_some hfind)
    split
    · exact h0
    split
    · split
      · exact h0
      · exact finishUpdate_bookings_ok db booking _ hst hbook h0
    · exact finishUpdate_bookings_ok db booking r hst hbook h0

/-- Cancelling a booking only moves a row into `cancelled`. -/
theorem cancelBooking_bookings_ok (db : DB) (u : AuthUser) (bid : Nat)
    (reason : Option String) (now : Int) (h0 : BookingsOK db.bookings) :
    BookingsOK (cancelBooking db u bid reason now).2.bookings := by
  unfold cancelBooking
  split
  · exact h0
  next booking hfind =>
    split
    · exact h0
    · dsimp only
      intro b hb
      obtain ⟨x, hx, hbx⟩ := List.mem_map.mp hb
      by_cases hc : (x.id == booking.id) = true
      · rw [if_pos hc] at hbx
        rw [← hbx]
        exact ⟨by simp [cancelledRow], by simp [cancelledRow]⟩
      · rw [if_neg hc] at hbx
        rw [← hbx]
        exact h0 x hx

/-- Every operation with no externally supplied status value preserves
`BookingsOK`. -/
theorem applyOp_bookings_ok (db : DB) (op : Op)
    (hop : opNoStatusField op = true) (h0 : BookingsOK db.bookings) :
    BookingsOK (applyOp db op).bookings := by
  cases op with
  | create today uid nid ref r =>
    exact createBooking_bookings_ok db today uid nid ref r h0
  | update u bid r =>
    have hst : r.status = none := by
      simpa [opNoStatusField] using hop
    exact updateBooking_bookings_ok db u bid r hst h0
  | cancel u bid reason now =>
    exact cancelBooking_bookings_ok db u bid reason now h0

/-- C8: the booking core sets `status = "pending"` on creation and
`status = "cancelled"` on cancellation and nothing else: over every sequence
of operations in which no update request externally supplies the pass-through
`status` field, no booking ever acquires status "confirmed" or "completed". -/
theorem status_only_cancelled_transition (db : DB) (ops : List Op)
    (hext : ∀ op ∈ ops, opNoStatusField op = true)
    (h0 : ∀ b ∈ db.bookings, b.status ≠ BookingStatus.confirmed ∧
      b.status ≠ BookingStatus.completed) :
    ∀ b ∈ (run db ops).bookings, b.status ≠ BookingStatus.confirmed ∧
      b.status ≠ BookingStatus.completed := by
  induction ops generalizing db with
  | nil => exact h0
  | cons op ops ih =>
    exact ih (applyOp db op) (fun o ho => hext o (List.mem_cons_of_mem op ho))
      (applyOp_bookings_ok db op (hext op (List.mem_cons_self op ops)) h0)

/-- Witness for C8 on a concrete trace: after user 7 cancels their pending
booking, the surviving row is `cancelled`, not `confirmed` and not
`completed`. -/
theorem status_only_cancelled_transition_witness :
    (cancelledRow bookingPending none 5).status ≠ BookingStatus.confirmed ∧
    (cancelledRow bookingPending none 5).status ≠ BookingStatus.completed :=
  status_only_cancelled_transition dbOnePending [Op.cancel customer7 1 none 5]
    (by decide) (by decide) (cancelledRow bookingPending none 5) (by decide)

/-! ### C9: registration (`src/controllers/authController.ts`) -/

/-- A row of the `users` table (the fields registration touches). -/
structure User where
  id : Nat
  email : String
  password : String
  firstName : String
  lastName : String
  phone : Option String
  role : Role
  isVerified : Bool
  verificationToken : Option String
deriving DecidableEq, Repr

/-- Body of `POST /api/auth/register` after `registerSchema.parse`. -/
structure RegisterReq where
  email : String
  password : String
  firstName : String
  lastName : String
  phone : Option String := none
  role : Option Role := none
  employeeSignupCode : Option String := none
deriving DecidableEq, Repr

/-- The registration response: HTTP status, machine error code, created user
and issued token. -/
structure RegisterResult where
  status : Nat
  success : Bool
  errorCode : Option String := none
  user : Option User := none
  token : Option String := none
deriving DecidableEq, Repr

/-- The guard `!requiredCode || employeeSignupCode !== requiredCode` on the
elevated-role branch: rejected when no `EMPLOYEE_SIGNUP_CODE` is configured
(in JavaScript an empty string is falsy too) or the supplied code differs. -/
def signupCodeRejected (envCode : Option String) (supplied : Option String) :
    Bool :=
  match envCode with
  | none => true
  | some code => code == "" || supplied != some code

/-- `User.create({...})` followed by `generateToken(user)` and the 201
response.  `hashPassword` and `generateToken` stand for the bcrypt and JWT
collaborators; `verificationToken` for the generated verification token. -/
def registerCreate (users : List User) (hashPassword : String → String)
    (generateToken : User → String) (verificationToken : String) (newId : Nat)
    (req : RegisterReq) (userRole : Role) : RegisterResult × List User :=
  let user : User :=
    { id := newId, email := req.email,
      password := hashPassword req.password, firstName := req.firstName,
      lastName := req.lastName, phone := req.phone, role := userRole,
      isVerified := userRole == Role.admin,
      verificationToken :=
        if userRole != Role.admin then some verificationToken else none }
  ({ status := 201, success := true, user := some user,
     token := some (generateToken user) }, users ++ [user])

/-- `register` from `authController.ts`: duplicate-email check, elevated-role
signup-code check, then user creation with the requested (or default
customer) role. -/
def register (users : List User) (envSignupCode : Option String)
    (hashPassword : String → String) (generateToken : User → String)
    (verificationToken : String) (newId : Nat) (req : RegisterReq) :
    RegisterResult × List User :=
  match users.find? (fun u => u.email == req.email) with
  | some _ =>
    ({ status := 409, success := false, errorCode := some "USER_EXISTS" },
     users)
  | none =>
    if req.role == some Role.employee || req.role == some Role.admin then
      if signupCodeRejected envSignupCode req.employeeSignupCode then
        ({ status := 403, success := false,
           errorCode := some "INVALID_SIGNUP_CODE" }, users)
      else
        registerCreate users hashPassword generateToken verificationToken
          newId req (req.role.getD Role.customer)
    else
      registerCreate users hashPassword generateToken verificationToken newId
        req Role.customer

/-- C9: registration returns 409 USER_EXISTS and creates nothing when the
email is taken; returns 403 INVALID_SIGNUP_CODE and creates nothing when an
employee/admin role is requested and the supplied code is rejected (wrong, or
no code configured); otherwise creates exactly one user carrying the
requested (or default customer) role and answers 201 with the user and a
token. -/
theorem register_spec (users : List User) (envCode : Option String)
    (hash : String → String) (tok : User → String) (vtok : String)
    (newId : Nat) (req : RegisterReq) :
    ((∃ u ∈ users, u.email = req.email) →
      (register users envCode hash tok vtok newId req).1.status = 409 ∧
      (register users envCode hash tok vtok newId req).1.errorCode =
        some "USER_EXISTS" ∧
      (register users envCode hash tok vtok newId req).2 = users) ∧
    ((∀ u ∈ users, u.email ≠ req.email) →
      (req.role = some Role.employee ∨ req.role = some Role.admin) →
      signupCodeRejected envCode req.employeeSignupCode = true →
      (register users envCode hash tok vtok newId req).1.status = 403 ∧
      (register users envCode hash tok vtok newId req).1.errorCode =
        some "INVALID_SIGNUP_CODE" ∧
      (register users envCode hash tok vtok newId req).2 = users) ∧
    ((∀ u ∈ users, u.email ≠ req.email) →
      (req.role = some Role.employee ∨ req.role = some Role.admin) →
      signupCodeRejected envCode req.employeeSignupCode = false →
      (register users envCode hash tok vtok newId req).1.status = 201 ∧
      (register users envCode hash tok vtok newId req).1.token.isSome = true ∧
      ∃ u, (register users envCode hash tok vtok newId req).1.user = some u ∧
        u.role = req.role.getD Role.customer ∧
        (register users envCode hash tok vtok newId req).2 = users ++ [u]) ∧
    ((∀ u ∈ users, u.email ≠ req.email) →
      req.role ≠ some Role.employee → req.role ≠ some Role.admin →
      (register users envCode hash tok vtok newId req).1.status = 201 ∧
      (register users envCode hash tok vtok newId req).1.token.isSome = true ∧
      ∃ u, (register users envCode hash tok vtok newId req).1.user = some u ∧
        u.role = Role.customer ∧
        (register users envCode hash tok vtok newId req).2 = users ++ [u]) := by
  refine ⟨?_, ?_, ?_, ?_⟩
  · intro hex
    obtain ⟨u, hu, hmail⟩ := hex
    have hsome : (users.find? (fun u => u.email == req.email)).isSome := by
      rw [List.find?_isSome]
      exact ⟨u, hu, by simp [hmail]⟩
    obtain ⟨u', hu'⟩ := Option.isSome_iff_exists.mp hsome
    simp only [register, hu']
    exact ⟨by trivial, by trivial, by trivial⟩
  · intro hnone hrole hrej
    have hfn : users.find? (fun u => u.email == req.email) = none := by
      rw [List.find?_eq_none]
      intro u hu
      simp [hnone u hu]
    have hro : (req.role == some Role.employee ||
        req.role == some Role.admin) = true := by
      rcases hrole with h | h <;> simp [h]
    simp only [register, hfn, hro, if_true, hrej]
    exact ⟨by trivial, by trivial, by trivial⟩
  · intro hnone hrole hrej
    have hfn : users.find? (fun u => u.email == req.email) = none := by
      rw [List.find?_eq_none]
      intro u hu
      simp [hnone u hu]
    have hro : (req.role == some Role.employee ||
        req.role == some Role.admin) = true := by
      rcases hrole with h | h <;> simp [h]
    simp only [register, hfn, hro, if_true, hrej, Bool.false_eq_true,
      if_false, registerCreate]
    exact ⟨by trivial, by trivial, _, rfl, rfl, rfl⟩
  · intro hnone hemp hadm
    have hfn : users.find? (fun u => u.email == req.email) = none := by
      rw [List.find?_eq_none]
      intro u hu
      simp [hnone u hu]
    have hro : (req.role == some Role.employee ||
        req.role == some Role.admin) = false := by
      simp [hemp, hadm]
    simp only [register, hfn, hro, Bool.false_eq_true, if_false,
      registerCreate]
    exact ⟨by trivial, by trivial, _, rfl, rfl, rfl⟩

/-- A valid employee registration request carrying the configured code. -/
def regReqEmployee : RegisterReq :=
  { email := "e@x.com", password := "secret1", firstName := "A",
    lastName := "B", role := some Role.employee,
    employeeSignupCode := some "CODE" }

/-- Witness for C9: on an empty users table with signup code "CODE"
configured, the employee request is accepted with 201 and a token. -/
theorem register_spec_witness :
    (register [] (some "CODE") (fun s => s) (fun _ => "JWT") "V" 1
      regReqEmployee).1.status = 201 ∧
    (register [] (some "CODE") (fun s => s) (fun _ => "JWT") "V" 1
      regReqEmployee).1.token.isSome = true := by
  have h := ((register_spec [] (some "CODE") (fun s => s) (fun _ => "JWT") "V"
    1 regReqEmployee).2.2.1) (by simp) (Or.inl rfl) (by decide)
  exact ⟨h.1, h.2.1⟩

end CW2
